import Mathlib

/-!
Verification of `src/core/gl/hidden_surface.js` (classes `HiddenSurface` and
`Shader`): a shallow embedding of the WebGL wrapper as a trace of GL commands
together with a small state machine for the context's bind state.

JS numbers are modelled as `Rat` (only integrality and identity of the values
matter for the claims); thrown JS strings are modelled by `JSError.thrown`.
-/

/-- GL texture-filter enum values used by the constructor. -/
inductive TexFilter where
  | LINEAR
  | LINEAR_MIPMAP_NEAREST
  deriving DecidableEq, Repr

/-- GL texture-parameter names used by the constructor. -/
inductive TexParamName where
  | TEXTURE_MAG_FILTER
  | TEXTURE_MIN_FILTER
  deriving DecidableEq, Repr

/-- Draw primitive modes (only TRIANGLE_STRIP occurs). -/
inductive DrawMode where
  | TRIANGLE_STRIP
  deriving DecidableEq, Repr

/-- A single call into the GL context, in the order the source issues them. -/
inductive GLCmd where
  | createFramebuffer (fb : Nat)
  | bindFramebuffer (fb : Option Nat)
  | createTexture (tex : Nat)
  | activeTexture (unit : Nat)
  | bindTexture2D (tex : Option Nat)
  | texParameteri (pname : TexParamName) (v : TexFilter)
  | generateMipmap
  | texImage2D (width height : Int)
  | createRenderbuffer (rb : Nat)
  | bindRenderbuffer (rb : Option Nat)
  | renderbufferStorage (width height : Int)
  | framebufferTexture2D (tex : Nat)
  | framebufferRenderbuffer (rb : Nat)
  | viewport (x y width height : Int)
  | useProgram (prog : Nat)
  | bindBuffer (buf : Nat)
  | enableVertexAttribArray (loc : Int)
  | vertexAttribPointer (loc : Int) (size : Nat)
  | drawArrays (mode : DrawMode) (first count : Nat)
  | uniform1fv (loc : Nat) (v : List Rat)
  | uniform2fv (loc : Nat) (v : List Rat)
  | uniform3fv (loc : Nat) (v : List Rat)
  | uniform4fv (loc : Nat) (v : List Rat)
  | uniformMatrix3fv (loc : Nat) (transpose : Bool) (v : List Rat)
  | uniformMatrix4fv (loc : Nat) (transpose : Bool) (v : List Rat)
  | uniform1i (loc : Nat) (v : Rat)
  | uniform1f (loc : Nat) (v : Rat)
  deriving DecidableEq, Repr

/-- The GL context bind state tracked by the model: the bound framebuffer and
renderbuffer, the active texture unit and the per-unit TEXTURE_2D bindings,
the current program, the bound ARRAY_BUFFER, the viewport, and per-object
records (texture dimensions and filter parameters, renderbuffer dimensions,
framebuffer attachments) written through the bind points. -/
structure GLState where
  boundFramebuffer : Option Nat
  boundRenderbuffer : Option Nat
  activeUnit : Nat
  textureBindings : Nat → Option Nat
  currentProgram : Option Nat
  boundArrayBuffer : Option Nat
  viewportRect : Option (Int × Int × Int × Int)
  texDims : Nat → Option (Int × Int)
  texMagFilter : Nat → Option TexFilter
  texMinFilter : Nat → Option TexFilter
  rbDims : Nat → Option (Int × Int)
  fbColorAttachment : Nat → Option Nat
  fbDepthAttachment : Nat → Option Nat

/-- A fresh GL context with nothing bound and no objects written. -/
def GLState.initial : GLState where
  boundFramebuffer := none
  boundRenderbuffer := none
  activeUnit := 0
  textureBindings := fun _ => none
  currentProgram := none
  boundArrayBuffer := none
  viewportRect := none
  texDims := fun _ => none
  texMagFilter := fun _ => none
  texMinFilter := fun _ => none
  rbDims := fun _ => none
  fbColorAttachment := fun _ => none
  fbDepthAttachment := fun _ => none

/-- Point update of a `Nat`-indexed map. -/
def updMap {α : Type} (m : Nat → Option α) (k : Nat) (v : Option α) :
    Nat → Option α :=
  fun i => if i = k then v else m i

/-- Effect of one GL call on the context state.  Calls that write through a
bind point (texParameteri, texImage2D, renderbufferStorage, the attachment
calls) write to the object currently bound there, and are no-ops when nothing
is bound, matching the GL context semantics the source relies on. -/
def applyCmd (s : GLState) : GLCmd → GLState
  | .createFramebuffer _ => s
  | .bindFramebuffer fb => { s with boundFramebuffer := fb }
  | .createTexture _ => s
  | .activeTexture u => { s with activeUnit := u }
  | .bindTexture2D t =>
      { s with textureBindings := updMap s.textureBindings s.activeUnit t }
  | .texParameteri pname v =>
      match s.textureBindings s.activeUnit with
      | none => s
      | some tex =>
          match pname with
          | .TEXTURE_MAG_FILTER =>
              { s with texMagFilter := updMap s.texMagFilter tex (some v) }
          | .TEXTURE_MIN_FILTER =>
              { s with texMinFilter := updMap s.texMinFilter tex (some v) }
  | .generateMipmap => s
  | .texImage2D w h =>
      match s.textureBindings s.activeUnit with
      | none => s
      | some tex => { s with texDims := updMap s.texDims tex (some (w, h)) }
  | .createRenderbuffer _ => s
  | .bindRenderbuffer rb => { s with boundRenderbuffer := rb }
  | .renderbufferStorage w h =>
      match s.boundRenderbuffer with
      | none => s
      | some rb => { s with rbDims := updMap s.rbDims rb (some (w, h)) }
  | .framebufferTexture2D tex =>
      match s.boundFramebuffer with
      | none => s
      | some fb =>
          { s with fbColorAttachment := updMap s.fbColorAttachment fb (some tex) }
  | .framebufferRenderbuffer rb =>
      match s.boundFramebuffer with
      | none => s
      | some fb =>
          { s with fbDepthAttachment := updMap s.fbDepthAttachment fb (some rb) }
  | .viewport x y w h => { s with viewportRect := some (x, y, w, h) }
  | .useProgram p => { s with currentProgram := some p }
  | .bindBuffer b => { s with boundArrayBuffer := some b }
  | .enableVertexAttribArray _ => s
  | .vertexAttribPointer _ _ => s
  | .drawArrays _ _ _ => s
  | .uniform1fv _ _ => s
  | .uniform2fv _ _ => s
  | .uniform3fv _ _ => s
  | .uniform4fv _ _ => s
  | .uniformMatrix3fv _ _ _ => s
  | .uniformMatrix4fv _ _ _ => s
  | .uniform1i _ _ => s
  | .uniform1f _ _ => s

/-- Run a trace of GL calls from a starting state. -/
def runTrace (s : GLState) : List GLCmd → GLState
  | [] => s
  | c :: cs => runTrace (applyCmd s c) cs

/-- A thrown JS value; the source only ever throws strings. -/
inductive JSError where
  | thrown (msg : String)
  deriving DecidableEq, Repr

/-- A uniform value as accepted by `Shader.setUniform`: a JS number or a JS
array of numbers (`Array.isArray` distinguishes the two). -/
inductive UniformValue where
  | num (x : Rat)
  | arr (xs : List Rat)
  deriving DecidableEq, Repr

/-- JS `Number.isInteger` on a (finite) number: no fractional part. -/
def jsIsInteger (x : Rat) : Bool := x.den == 1

/-- The `Shader` object after a successful construction: the program handle,
the static quad vertex buffer handle, the `position` attribute location, and
the linked program's uniform-name-to-location table that
`gl.getUniformLocation` consults. -/
structure Shader where
  program : Nat
  vertexBuffer : Nat
  vertexAttribute : Int
  uniformLoc : String → Option Nat

/-- `Shader.setUniform(name, value)`: activates the program, looks up the
uniform location (returning silently when absent), then dispatches on the
value's shape exactly as the source's `switch` does.  Returns the trace of GL
calls performed together with the thrown error, if any (side effects before a
throw are kept, as in JS). -/
def Shader.setUniform (sh : Shader) (name : String) (value : UniformValue) :
    List GLCmd × Option JSError :=
  let pre : List GLCmd := [.useProgram sh.program]
  match sh.uniformLoc name with
  | none => (pre, none)
  | some location =>
    match value with
    | .arr v =>
      if v.length = 1 then (pre ++ [.uniform1fv location v], none)
      else if v.length = 2 then (pre ++ [.uniform2fv location v], none)
      else if v.length = 3 then (pre ++ [.uniform3fv location v], none)
      else if v.length = 4 then (pre ++ [.uniform4fv location v], none)
      else if v.length = 9 then (pre ++ [.uniformMatrix3fv location false v], none)
      else if v.length = 16 then (pre ++ [.uniformMatrix4fv location false v], none)
      else
        (pre, some (.thrown
          ("dont know how to load uniform \x22" ++ name ++
            "\x22 of length " ++ toString v.length)))
    | .num x =>
      if jsIsInteger x then
        (pre ++ [.uniform1i location x], none)
      else
        (pre ++ [.uniform1f location x], none)

/-- Whether a GL call writes uniform state of the current program. -/
def GLCmd.isUniformWrite : GLCmd → Bool
  | .uniform1fv _ _ => true
  | .uniform2fv _ _ => true
  | .uniform3fv _ _ => true
  | .uniform4fv _ _ => true
  | .uniformMatrix3fv _ _ _ => true
  | .uniformMatrix4fv _ _ _ => true
  | .uniform1i _ _ => true
  | .uniform1f _ _ => true
  | _ => false

/-- The `HiddenSurface` object: the framebuffer handle with the width/height
the constructor stores on it, and the color texture and depth renderbuffer
handles. -/
structure HiddenSurface where
  hiddenSurface : Nat
  width : Int
  height : Int
  framebuffer_texture : Nat
  render_buffer : Nat

/-- The `HiddenSurface` constructor: the trace of GL calls it issues, given
the handles the three `create*` calls return, together with the constructed
object.  Order follows the source line by line. -/
def HiddenSurface.construct (fbId texId rbId : Nat) (width height : Int) :
    List GLCmd × HiddenSurface :=
  ([ .createFramebuffer fbId,
     .bindFramebuffer (some fbId),
     .createTexture texId,
     .bindTexture2D (some texId),
     .texParameteri .TEXTURE_MAG_FILTER .LINEAR,
     .texParameteri .TEXTURE_MIN_FILTER .LINEAR_MIPMAP_NEAREST,
     .generateMipmap,
     .texImage2D width height,
     .createRenderbuffer rbId,
     .bindRenderbuffer (some rbId),
     .renderbufferStorage width height,
     .framebufferTexture2D texId,
     .framebufferRenderbuffer rbId,
     .bindTexture2D none,
     .bindRenderbuffer none,
     .bindFramebuffer none ],
   { hiddenSurface := fbId, width := width, height := height,
     framebuffer_texture := texId, render_buffer := rbId })

/-- `HiddenSurface.bind()`: `gl.bindFramebuffer(FRAMEBUFFER, this.hiddenSurface)`. -/
def HiddenSurface.bindTrace (hs : HiddenSurface) : List GLCmd :=
  [.bindFramebuffer (some hs.hiddenSurface)]

/-- `HiddenSurface.unbind()`: `gl.bindTexture(TEXTURE_2D, null)` and nothing else. -/
def HiddenSurface.unbindTrace (_hs : HiddenSurface) : List GLCmd :=
  [.bindTexture2D none]

/-- The surface interface `Shader.render` uses: `bind()`, `unbind()`,
`getWidth()`, `getHeight()`.  Only `HiddenSurface` is in the source file;
the base `Surface` class lives elsewhere in the repository, so a surface is
modelled by the traces its two methods issue and its reported dimensions. -/
structure Surface where
  bindCmds : List GLCmd
  unbindCmds : List GLCmd
  getWidth : Int
  getHeight : Int

/-- Modelled from the spec: `Surface.getWidth`/`getHeight` are not in
`src/`; per the spec the viewport is set to "the target's declared
dimensions", which for a hidden surface are the width/height stored on its
framebuffer. -/
def HiddenSurface.toSurface (hs : HiddenSurface) : Surface where
  bindCmds := hs.bindTrace
  unbindCmds := hs.unbindTrace
  getWidth := hs.width
  getHeight := hs.height

/-- Modelled from the spec: the `Texture` class (`use(unit)`) is not in
`src/`; per the spec, `render` "binds each supplied texture to its
corresponding texture unit (order-preserving, unit index = position in the
input list)": activate the unit and bind the texture there. -/
def textureUse (tex unit : Nat) : List GLCmd :=
  [.activeTexture unit, .bindTexture2D (some tex)]

/-- Modelled from the spec: the `Texture` class (`unuse(unit)`) is not in
`src/`; per the spec, `render` "then unbinds each texture": activate the
unit and clear the TEXTURE_2D binding there. -/
def textureUnuse (unit : Nat) : List GLCmd :=
  [.activeTexture unit, .bindTexture2D none]

/-- The `for (let unit in textures) textures[unit].use(unit)` loop: each
texture in order, with the unit index counting up from `u`. -/
def useLoop : List Nat → Nat → List GLCmd
  | [], _ => []
  | t :: ts, u => textureUse t u ++ useLoop ts (u + 1)

/-- The `for (let unit in textures) textures[unit].unuse(unit)` loop. -/
def unuseLoop : List Nat → Nat → List GLCmd
  | [], _ => []
  | _ :: ts, u => textureUnuse u ++ unuseLoop ts (u + 1)

/-- `Shader.render(surface, textures)` as the trace of GL calls it issues,
following the source line by line: bind the surface, set the viewport from
its dimensions, bind the textures, enable the attribute, use the program,
bind the quad buffer, set the attribute pointer, draw a 4-vertex triangle
strip, unbind the textures, unbind the surface. -/
def Shader.render (sh : Shader) (surface : Surface) (textures : List Nat) :
    List GLCmd :=
  surface.bindCmds
    ++ [.viewport 0 0 surface.getWidth surface.getHeight]
    ++ useLoop textures 0
    ++ [ .enableVertexAttribArray sh.vertexAttribute,
         .useProgram sh.program,
         .bindBuffer sh.vertexBuffer,
         .vertexAttribPointer sh.vertexAttribute 4,
         .drawArrays .TRIANGLE_STRIP 0 4 ]
    ++ unuseLoop textures 0
    ++ surface.unbindCmds

/-- Shader stage kinds. -/
inductive ShaderType where
  | VERTEX_SHADER
  | FRAGMENT_SHADER
  deriving DecidableEq, Repr

/-- The GL context behavior the `Shader` constructor depends on: whether a
source compiles for a stage and the info log when it does not, and whether
the program links and the program info log when it does not. -/
structure GLCompile where
  compileOk : ShaderType → String → Bool
  shaderInfoLog : ShaderType → String → String
  linkOk : Bool
  programInfoLog : String
  programId : Nat
  bufferId : Nat
  attribLoc : Int
  uniformTable : String → Option Nat

/-- `Shader.compileSource(type, source)`: creates and compiles a shader,
throwing `'compile error: ' + infoLog` when COMPILE_STATUS is false. -/
def compileSource (gl : GLCompile) (ty : ShaderType) (source : String) :
    Except JSError Unit :=
  if gl.compileOk ty source then .ok ()
  else .error (.thrown ("compile error: " ++ gl.shaderInfoLog ty source))

/-- The `Shader` constructor: compiles the vertex source, then the fragment
source (each throw aborting construction), links, and throws
`'link error: ' + programInfoLog` when LINK_STATUS is false; on success the
`Shader` object with its program, quad vertex buffer and attribute location
exists. -/
def Shader.construct (gl : GLCompile) (vertexSource fragmentSource : String) :
    Except JSError Shader :=
  match compileSource gl .VERTEX_SHADER vertexSource with
  | .error e => .error e
  | .ok _ =>
    match compileSource gl .FRAGMENT_SHADER fragmentSource with
    | .error e => .error e
    | .ok _ =>
      if gl.linkOk then
        .ok { program := gl.programId, vertexBuffer := gl.bufferId,
              vertexAttribute := gl.attribLoc, uniformLoc := gl.uniformTable }
      else
        .error (.thrown ("link error: " ++ gl.programInfoLog))

/-! ## Theorems about `setUniform` (C1, C2, C9, C10) -/

/-- C1: with a uniform location found, an array value dispatches by length:
lengths 1/2/3/4 go to the 1/2/3/4-component float vector uniform calls,
length 9 to the 3x3 matrix call and length 16 to the 4x4 matrix call, both
with the transpose flag false; any other length throws an error message that
carries the uniform name and the offending length. -/
theorem setUniform_array_dispatch (sh : Shader) (name : String) (loc : Nat)
    (xs : List Rat) (hloc : sh.uniformLoc name = some loc) :
    (xs.length = 1 → sh.setUniform name (.arr xs) =
        ([.useProgram sh.program, .uniform1fv loc xs], none)) ∧
    (xs.length = 2 → sh.setUniform name (.arr xs) =
        ([.useProgram sh.program, .uniform2fv loc xs], none)) ∧
    (xs.length = 3 → sh.setUniform name (.arr xs) =
        ([.useProgram sh.program, .uniform3fv loc xs], none)) ∧
    (xs.length = 4 → sh.setUniform name (.arr xs) =
        ([.useProgram sh.program, .uniform4fv loc xs], none)) ∧
    (xs.length = 9 → sh.setUniform name (.arr xs) =
        ([.useProgram sh.program, .uniformMatrix3fv loc false xs], none)) ∧
    (xs.length = 16 → sh.setUniform name (.arr xs) =
        ([.useProgram sh.program, .uniformMatrix4fv loc false xs], none)) ∧
    (xs.length ∉ ([1, 2, 3, 4, 9, 16] : List Nat) →
      sh.setUniform name (.arr xs) =
        ([.useProgram sh.program],
         some (.thrown ("dont know how to load uniform \x22" ++ name ++
           "\x22 of length " ++ toString xs.length)))) := by
  refine ⟨?_, ?_, ?_, ?_, ?_, ?_, ?_⟩ <;> intro h
  · simp [Shader.setUniform, hloc, h]
  · simp [Shader.setUniform, hloc, h]
  · simp [Shader.setUniform, hloc, h]
  · simp [Shader.setUniform, hloc, h]
  · simp [Shader.setUniform, hloc, h]
  · simp [Shader.setUniform, hloc, h]
  · simp only [List.mem_cons, List.not_mem_nil, or_false, not_or] at h
    obtain ⟨h1, h2, h3, h4, h9, h16⟩ := h
    simp [Shader.setUniform, hloc, h1, h2, h3, h4, h9, h16]

/-- A concrete shader used as input for the witnesses: program handle 1,
vertex buffer 2, attribute location 0, and a program that has exactly one
uniform, named `u`, at location 7. -/
def shW : Shader where
  program := 1
  vertexBuffer := 2
  vertexAttribute := 0
  uniformLoc := fun n => if n = "u" then some 7 else none

/-- Witness for C1 at concrete inputs: length 2 dispatches to the
2-component vector call, length 9 to the non-transposed 3x3 matrix call, and
length 5 throws with the name and the length in the message. -/
theorem setUniform_array_dispatch_witness :
    shW.setUniform "u" (.arr [1, 2]) =
      ([.useProgram 1, .uniform2fv 7 [1, 2]], none) ∧
    shW.setUniform "u" (.arr [1, 2, 3, 4, 5, 6, 7, 8, 9]) =
      ([.useProgram 1, .uniformMatrix3fv 7 false [1, 2, 3, 4, 5, 6, 7, 8, 9]],
        none) ∧
    shW.setUniform "u" (.arr [1, 2, 3, 4, 5]) =
      ([.useProgram 1],
       some (.thrown "dont know how to load uniform \x22u\x22 of length 5")) :=
  ⟨(setUniform_array_dispatch shW "u" 7 [1, 2] rfl).2.1 rfl,
   (setUniform_array_dispatch shW "u" 7 [1, 2, 3, 4, 5, 6, 7, 8, 9]
      rfl).2.2.2.2.1 rfl,
   (setUniform_array_dispatch shW "u" 7 [1, 2, 3, 4, 5] rfl).2.2.2.2.2.2
      (by decide)⟩

/-- C2: when the uniform name is absent from the linked program (location
lookup returns `none`), `setUniform` returns with no error for every value,
and the calls it made wrote no uniform state. -/
theorem setUniform_missing_name_noop (sh : Shader) (name : String)
    (value : UniformValue) (h : sh.uniformLoc name = none) :
    sh.setUniform name value = ([.useProgram sh.program], none) ∧
    ∀ c ∈ (sh.setUniform name value).1, c.isUniformWrite = false := by
  have hres : sh.setUniform name value = ([.useProgram sh.program], none) := by
    simp [Shader.setUniform, h]
  refine ⟨hres, ?_⟩
  intro c hc
  rw [hres] at hc
  simp only [List.mem_singleton] at hc
  subst hc
  rfl

/-- Witness for C2 at a concrete input: the name `missing` is not in `shW`'s
program, so the call returns only the `useProgram` call and no error. -/
theorem setUniform_missing_name_noop_witness :
    shW.setUniform "missing" (.arr [1, 2, 3]) = ([.useProgram 1], none) :=
  (setUniform_missing_name_noop shW "missing" (.arr [1, 2, 3]) rfl).1

/-- C9: with a uniform location found, a non-array number goes through the
integer-uniform call when `Number.isInteger` holds of it, and through the
scalar float call otherwise. -/
theorem setUniform_scalar_dispatch (sh : Shader) (name : String) (loc : Nat)
    (x : Rat) (hloc : sh.uniformLoc name = some loc) :
    (jsIsInteger x = true → sh.setUniform name (.num x) =
        ([.useProgram sh.program, .uniform1i loc x], none)) ∧
    (jsIsInteger x = false → sh.setUniform name (.num x) =
        ([.useProgram sh.program, .uniform1f loc x], none)) := by
  constructor <;> intro h <;> simp [Shader.setUniform, hloc, h]

/-- The rational 1/2, written by its reduced numerator and denominator. -/
def halfQ : Rat := ⟨1, 2, by decide, by simp [Nat.Coprime]⟩

/-- Witness for C9 at concrete inputs: the integer 3 goes through
`uniform1i`, the non-integer 1/2 through `uniform1f`. -/
theorem setUniform_scalar_dispatch_witness :
    shW.setUniform "u" (.num 3) = ([.useProgram 1, .uniform1i 7 3], none) ∧
    shW.setUniform "u" (.num halfQ) =
      ([.useProgram 1, .uniform1f 7 halfQ], none) :=
  ⟨(setUniform_scalar_dispatch shW "u" 7 3 rfl).1 (by decide),
   (setUniform_scalar_dispatch shW "u" 7 halfQ rfl).2 (by rfl)⟩

/-- C10: every `setUniform` call, the silent no-op case included, issues
`useProgram` on this shader's program as its first GL call, and running the
call's trace from any context state leaves that program current. -/
theorem setUniform_always_uses_program (sh : Shader) (name : String)
    (value : UniformValue) :
    (sh.setUniform name value).1.head? = some (.useProgram sh.program) ∧
    ∀ s : GLState,
      (runTrace s (sh.setUniform name value).1).currentProgram =
        some sh.program := by
  unfold Shader.setUniform
  cases hloc : sh.uniformLoc name with
  | none => exact ⟨rfl, fun s => rfl⟩
  | some loc =>
    cases value with
    | num x =>
      by_cases h : jsIsInteger x = true <;>
        simp [h, runTrace, applyCmd]
    | arr xs =>
      by_cases h1 : xs.length = 1
      · simp [h1, runTrace, applyCmd]
      by_cases h2 : xs.length = 2
      · simp [h1, h2, runTrace, applyCmd]
      by_cases h3 : xs.length = 3
      · simp [h1, h2, h3, runTrace, applyCmd]
      by_cases h4 : xs.length = 4
      · simp [h1, h2, h3, h4, runTrace, applyCmd]
      by_cases h9 : xs.length = 9
      · simp [h1, h2, h3, h4, h9, runTrace, applyCmd]
      by_cases h16 : xs.length = 16
      · simp [h1, h2, h3, h4, h9, h16, runTrace, applyCmd]
      · simp [h1, h2, h3, h4, h9, h16, runTrace, applyCmd]

/-! ## Theorems about the `Shader` constructor (C5) -/

/-- C5: construction fails with `'compile error: ' + log` when the vertex or
the fragment stage fails to compile (the vertex stage is checked first), and
with `'link error: ' + log` when linking fails; in each failure case no
`Shader` value is produced, so no render call on it is possible. -/
theorem shader_construct_errors (gl : GLCompile) (vs fs : String) :
    (gl.compileOk .VERTEX_SHADER vs = false →
      Shader.construct gl vs fs =
        .error (.thrown ("compile error: " ++ gl.shaderInfoLog .VERTEX_SHADER vs))) ∧
    (gl.compileOk .VERTEX_SHADER vs = true →
      gl.compileOk .FRAGMENT_SHADER fs = false →
      Shader.construct gl vs fs =
        .error (.thrown ("compile error: " ++ gl.shaderInfoLog .FRAGMENT_SHADER fs))) ∧
    (gl.compileOk .VERTEX_SHADER vs = true →
      gl.compileOk .FRAGMENT_SHADER fs = true → gl.linkOk = false →
      Shader.construct gl vs fs =
        .error (.thrown ("link error: " ++ gl.programInfoLog))) ∧
    ((gl.compileOk .VERTEX_SHADER vs = false ∨
      gl.compileOk .FRAGMENT_SHADER fs = false ∨ gl.linkOk = false) →
      ∀ sh : Shader, Shader.construct gl vs fs ≠ .ok sh) := by
  refine ⟨?_, ?_, ?_, ?_⟩
  · intro hv
    simp [Shader.construct, compileSource, hv]
  · intro hv hf
    simp [Shader.construct, compileSource, hv, hf]
  · intro hv hf hl
    simp [Shader.construct, compileSource, hv, hf, hl]
  · rintro (hv | hf | hl) sh
    · simp [Shader.construct, compileSource, hv]
    · cases hv : gl.compileOk .VERTEX_SHADER vs <;>
        simp [Shader.construct, compileSource, hv, hf]
    · cases hv : gl.compileOk .VERTEX_SHADER vs <;>
        cases hf : gl.compileOk .FRAGMENT_SHADER fs <;>
        simp [Shader.construct, compileSource, hv, hf, hl]

/-- A concrete GL compile/link behavior for the witnesses, parameterized by
which checks succeed.  Compile logs are `vlog`/`flog`, the link log `llog`. -/
def glCompileW (vOk fOk lOk : Bool) : GLCompile where
  compileOk := fun ty _ =>
    match ty with
    | .VERTEX_SHADER => vOk
    | .FRAGMENT_SHADER => fOk
  shaderInfoLog := fun ty _ =>
    match ty with
    | .VERTEX_SHADER => "vlog"
    | .FRAGMENT_SHADER => "flog"
  linkOk := lOk
  programInfoLog := "llog"
  programId := 1
  bufferId := 2
  attribLoc := 0
  uniformTable := fun _ => none

/-- Witness for C5: a failing vertex stage, a failing fragment stage, and a
failing link each abort construction with the corresponding message. -/
theorem shader_construct_errors_witness :
    Shader.construct (glCompileW false true true) "v" "f" =
      .error (.thrown "compile error: vlog") ∧
    Shader.construct (glCompileW true false true) "v" "f" =
      .error (.thrown "compile error: flog") ∧
    Shader.construct (glCompileW true true false) "v" "f" =
      .error (.thrown "link error: llog") :=
  ⟨(shader_construct_errors (glCompileW false true true) "v" "f").1 rfl,
   (shader_construct_errors (glCompileW true false true) "v" "f").2.1 rfl rfl,
   (shader_construct_errors (glCompileW true true false) "v" "f").2.2.1
      rfl rfl rfl⟩

/-! ## Theorems about the `HiddenSurface` constructor (C6, C7) -/

/-- C7: the constructor allocates a framebuffer, a color texture and a depth
renderbuffer; after running its trace from any context state, the texture
has LINEAR magnification and LINEAR_MIPMAP_NEAREST minification filtering
and width x height storage, the renderbuffer has width x height storage, the
texture is the framebuffer's color attachment and the renderbuffer its depth
attachment, and the framebuffer, renderbuffer and (active-unit) texture
bindings are all cleared. -/
theorem hidden_surface_construct_spec (s0 : GLState) (fbId texId rbId : Nat)
    (w h : Int) :
    GLCmd.createFramebuffer fbId ∈
        (HiddenSurface.construct fbId texId rbId w h).1 ∧
    GLCmd.createTexture texId ∈
        (HiddenSurface.construct fbId texId rbId w h).1 ∧
    GLCmd.createRenderbuffer rbId ∈
        (HiddenSurface.construct fbId texId rbId w h).1 ∧
    (runTrace s0 (HiddenSurface.construct fbId texId rbId w h).1).texMagFilter
        texId = some .LINEAR ∧
    (runTrace s0 (HiddenSurface.construct fbId texId rbId w h).1).texMinFilter
        texId = some .LINEAR_MIPMAP_NEAREST ∧
    (runTrace s0 (HiddenSurface.construct fbId texId rbId w h).1).texDims
        texId = some (w, h) ∧
    (runTrace s0 (HiddenSurface.construct fbId texId rbId w h).1).rbDims
        rbId = some (w, h) ∧
    (runTrace s0
        (HiddenSurface.construct fbId texId rbId w h).1).fbColorAttachment
        fbId = some texId ∧
    (runTrace s0
        (HiddenSurface.construct fbId texId rbId w h).1).fbDepthAttachment
        fbId = some rbId ∧
    (runTrace s0
        (HiddenSurface.construct fbId texId rbId w h).1).boundFramebuffer =
      none ∧
    (runTrace s0
        (HiddenSurface.construct fbId texId rbId w h).1).boundRenderbuffer =
      none ∧
    (runTrace s0 (HiddenSurface.construct fbId texId rbId w h).1).textureBindings
        s0.activeUnit = none := by
  refine ⟨?_, ?_, ?_, ?_, ?_, ?_, ?_, ?_, ?_, ?_, ?_, ?_⟩ <;>
    simp [HiddenSurface.construct, runTrace, applyCmd, updMap]

/-- C6: the declared width/height stored on the constructed surface are the
constructor's arguments, and after running the constructor's trace the
framebuffer's color attachment (the texture) and depth attachment (the
renderbuffer) both have storage of exactly those dimensions: no mismatched
attachment exists.  The constructor is the only creation path in the source
(there is no resize operation). -/
theorem hidden_surface_dims_match (s0 : GLState) (fbId texId rbId : Nat)
    (w h : Int) :
    (HiddenSurface.construct fbId texId rbId w h).2.width = w ∧
    (HiddenSurface.construct fbId texId rbId w h).2.height = h ∧
    (∀ t,
      (runTrace s0
          (HiddenSurface.construct fbId texId rbId w h).1).fbColorAttachment
          (HiddenSurface.construct fbId texId rbId w h).2.hiddenSurface =
        some t →
      (runTrace s0 (HiddenSurface.construct fbId texId rbId w h).1).texDims t =
        some ((HiddenSurface.construct fbId texId rbId w h).2.width,
              (HiddenSurface.construct fbId texId rbId w h).2.height)) ∧
    (∀ r,
      (runTrace s0
          (HiddenSurface.construct fbId texId rbId w h).1).fbDepthAttachment
          (HiddenSurface.construct fbId texId rbId w h).2.hiddenSurface =
        some r →
      (runTrace s0 (HiddenSurface.construct fbId texId rbId w h).1).rbDims r =
        some ((HiddenSurface.construct fbId texId rbId w h).2.width,
              (HiddenSurface.construct fbId texId rbId w h).2.height)) := by
  refine ⟨rfl, rfl, ?_, ?_⟩
  · intro t ht
    simp [HiddenSurface.construct, runTrace, applyCmd, updMap] at ht ⊢
    subst ht
    simp
  · intro r hr
    simp [HiddenSurface.construct, runTrace, applyCmd, updMap] at hr ⊢
    subst hr
    simp

/-- Witness for C6 at concrete inputs: framebuffer 1, texture 2,
renderbuffer 3, dimensions 10 x 20, from a fresh context. -/
theorem hidden_surface_dims_match_witness :
    (runTrace GLState.initial
        (HiddenSurface.construct 1 2 3 10 20).1).fbColorAttachment 1 =
      some 2 ∧
    (runTrace GLState.initial (HiddenSurface.construct 1 2 3 10 20).1).texDims
        2 = some (10, 20) ∧
    (runTrace GLState.initial (HiddenSurface.construct 1 2 3 10 20).1).rbDims
        3 = some (10, 20) :=
  ⟨rfl,
   (hidden_surface_dims_match GLState.initial 1 2 3 10 20).2.2.1 2 rfl,
   (hidden_surface_dims_match GLState.initial 1 2 3 10 20).2.2.2 3 rfl⟩

/-! ## Theorems about `HiddenSurface.unbind` (C8) -/

/-- C8: `unbind()` only clears the TEXTURE_2D binding of the active texture
unit; every other component of the context state is unchanged — in
particular the framebuffer binding — so it is not symmetric with `bind()`,
which sets the framebuffer binding to this surface's framebuffer. -/
theorem hidden_unbind_only_texture (hs : HiddenSurface) (s : GLState) :
    (runTrace s hs.unbindTrace).textureBindings s.activeUnit = none ∧
    (∀ i, i ≠ s.activeUnit →
      (runTrace s hs.unbindTrace).textureBindings i = s.textureBindings i) ∧
    (runTrace s hs.unbindTrace).boundFramebuffer = s.boundFramebuffer ∧
    (runTrace s hs.unbindTrace).boundRenderbuffer = s.boundRenderbuffer ∧
    (runTrace s hs.unbindTrace).activeUnit = s.activeUnit ∧
    (runTrace s hs.unbindTrace).currentProgram = s.currentProgram ∧
    (runTrace s hs.unbindTrace).boundArrayBuffer = s.boundArrayBuffer ∧
    (runTrace s hs.unbindTrace).viewportRect = s.viewportRect ∧
    (runTrace s hs.unbindTrace).texDims = s.texDims ∧
    (runTrace s hs.unbindTrace).texMagFilter = s.texMagFilter ∧
    (runTrace s hs.unbindTrace).texMinFilter = s.texMinFilter ∧
    (runTrace s hs.unbindTrace).rbDims = s.rbDims ∧
    (runTrace s hs.unbindTrace).fbColorAttachment = s.fbColorAttachment ∧
    (runTrace s hs.unbindTrace).fbDepthAttachment = s.fbDepthAttachment ∧
    (runTrace s hs.bindTrace).boundFramebuffer = some hs.hiddenSurface := by
  refine ⟨?_, ?_, rfl, rfl, rfl, rfl, rfl, rfl, rfl, rfl, rfl, rfl, rfl, rfl,
    rfl⟩
  · simp [HiddenSurface.unbindTrace, runTrace, applyCmd, updMap]
  · intro i hi
    simp [HiddenSurface.unbindTrace, runTrace, applyCmd, updMap, hi]

/-- A concrete hidden surface used as input for witnesses: framebuffer 5 at
8 x 8, color texture 6, depth renderbuffer 7. -/
def hsW : HiddenSurface where
  hiddenSurface := 5
  width := 8
  height := 8
  framebuffer_texture := 6
  render_buffer := 7

/-- Witness for C8 at concrete inputs: from a fresh context, `unbind()`
clears unit 0's texture binding, leaves unit 1's untouched and leaves the
framebuffer binding unchanged, while `bind()` sets the framebuffer
binding. -/
theorem hidden_unbind_only_texture_witness :
    (runTrace GLState.initial hsW.unbindTrace).textureBindings 0 = none ∧
    (runTrace GLState.initial hsW.unbindTrace).textureBindings 1 =
      GLState.initial.textureBindings 1 ∧
    (runTrace GLState.initial hsW.unbindTrace).boundFramebuffer = none ∧
    (runTrace GLState.initial hsW.bindTrace).boundFramebuffer = some 5 :=
  ⟨(hidden_unbind_only_texture hsW GLState.initial).1,
   (hidden_unbind_only_texture hsW GLState.initial).2.1 1 (by decide),
   (hidden_unbind_only_texture hsW GLState.initial).2.2.1,
   (hidden_unbind_only_texture hsW GLState.initial).2.2.2.2.2.2.2.2.2.2.2.2.2.2⟩

/-! ## Lemmas about the render loops (for C3 and C4) -/

/-- Running an appended trace is running the pieces in order. -/
theorem runTrace_append (s : GLState) (a b : List GLCmd) :
    runTrace s (a ++ b) = runTrace (runTrace s a) b := by
  induction a generalizing s with
  | nil => rfl
  | cons c cs ih => simp [runTrace, ih]

/-- The texture-bind loop never touches the framebuffer binding. -/
theorem useLoop_boundFramebuffer (ts : List Nat) (u : Nat) (s : GLState) :
    (runTrace s (useLoop ts u)).boundFramebuffer = s.boundFramebuffer := by
  induction ts generalizing u s with
  | nil => rfl
  | cons t ts ih => simp [useLoop, textureUse, runTrace, applyCmd, ih]

/-- The texture-unbind loop never touches the framebuffer binding. -/
theorem unuseLoop_boundFramebuffer (ts : List Nat) (u : Nat) (s : GLState) :
    (runTrace s (unuseLoop ts u)).boundFramebuffer = s.boundFramebuffer := by
  induction ts generalizing u s with
  | nil => rfl
  | cons t ts ih => simp [unuseLoop, textureUnuse, runTrace, applyCmd, ih]

/-- The texture-unbind loop leaves units below its starting unit alone. -/
theorem unuseLoop_preserves_below (ts : List Nat) (u : Nat) (s : GLState)
    (i : Nat) (hi : i < u) :
    (runTrace s (unuseLoop ts u)).textureBindings i = s.textureBindings i := by
  induction ts generalizing u s with
  | nil => rfl
  | cons t ts ih =>
    have hne : i ≠ u := Nat.ne_of_lt hi
    rw [unuseLoop, runTrace_append, ih (u + 1) _ (Nat.lt_succ_of_lt hi)]
    simp [textureUnuse, runTrace, applyCmd, updMap, hne]

/-- After the texture-unbind loop starting at unit `u`, every unit covered
by the list has its TEXTURE_2D binding cleared. -/
theorem unuseLoop_clears (ts : List Nat) (u : Nat) (s : GLState) (i : Nat)
    (hlo : u ≤ i) (hhi : i < u + ts.length) :
    (runTrace s (unuseLoop ts u)).textureBindings i = none := by
  induction ts generalizing u s with
  | nil =>
    simp only [List.length_nil] at hhi
    omega
  | cons t ts ih =>
    rw [unuseLoop, runTrace_append]
    by_cases heq : i = u
    · rw [unuseLoop_preserves_below ts (u + 1) _ i (by omega)]
      simp [textureUnuse, runTrace, applyCmd, updMap, heq]
    · refine ih (u + 1) _ (by omega) ?_
      simp only [List.length_cons] at hhi
      omega

/-- Clearing the TEXTURE_2D binding of the active unit never re-binds a
texture: a unit whose binding is already `none` stays `none`. -/
theorem bindTextureNone_keeps_none (s : GLState) (i : Nat)
    (h : s.textureBindings i = none) :
    (applyCmd s (.bindTexture2D none)).textureBindings i = none := by
  by_cases hi : i = s.activeUnit <;> simp [applyCmd, updMap, hi, h]

/-! ## Theorems about `Shader.render` (C3, C4) -/

/-- Counterexample to C3 at a concrete input: from a fresh context (no
framebuffer bound), rendering to a hidden surface leaves that surface's
framebuffer bound after the call returns, because `HiddenSurface.unbind()`
only clears the texture binding.  The framebuffer binding introduced during
the call thus remains bound, contradicting the claim that no binding
introduced during the call survives it. -/
theorem render_target_binding_leaks_cex :
    GLState.initial.boundFramebuffer = none ∧
    (runTrace GLState.initial
        (shW.render hsW.toSurface [9])).boundFramebuffer = some 5 :=
  ⟨rfl, rfl⟩

/-- C3 as amended: after `render(surface, textures)` on a hidden surface,
every texture unit the call used has its TEXTURE_2D binding cleared (set to
null, not restored to its prior value), but the framebuffer binding
introduced by `surface.bind()` remains bound: the final bound framebuffer is
the hidden surface's framebuffer, whatever was bound before. -/
theorem render_hidden_final_bindings (s0 : GLState) (sh : Shader)
    (hs : HiddenSurface) (textures : List Nat) :
    (∀ i, i < textures.length →
      (runTrace s0 (sh.render hs.toSurface textures)).textureBindings i =
        none) ∧
    (runTrace s0 (sh.render hs.toSurface textures)).boundFramebuffer =
      some hs.hiddenSurface := by
  constructor
  · intro i hi
    rw [Shader.render, runTrace_append, runTrace_append]
    exact bindTextureNone_keeps_none _ i
      (unuseLoop_clears textures 0 _ i (Nat.zero_le i) (by omega))
  · rw [Shader.render, runTrace_append, runTrace_append, runTrace_append,
      runTrace_append, runTrace_append]
    have hF : ∀ s : GLState,
        (runTrace s hs.toSurface.unbindCmds).boundFramebuffer =
          s.boundFramebuffer := fun _ => rfl
    rw [hF, unuseLoop_boundFramebuffer]
    have hD : ∀ s : GLState,
        (runTrace s
            [GLCmd.enableVertexAttribArray sh.vertexAttribute,
             GLCmd.useProgram sh.program,
             GLCmd.bindBuffer sh.vertexBuffer,
             GLCmd.vertexAttribPointer sh.vertexAttribute 4,
             GLCmd.drawArrays .TRIANGLE_STRIP 0 4]).boundFramebuffer =
          s.boundFramebuffer := fun _ => rfl
    rw [hD, useLoop_boundFramebuffer]
    rfl

/-- Witness for the amended C3 at a concrete input: one texture on unit 0;
afterwards unit 0 is cleared and the hidden surface's framebuffer (handle 5)
is still bound. -/
theorem render_hidden_final_bindings_witness :
    (runTrace GLState.initial
        (shW.render hsW.toSurface [9])).textureBindings 0 = none ∧
    (runTrace GLState.initial
        (shW.render hsW.toSurface [9])).boundFramebuffer = some 5 :=
  ⟨(render_hidden_final_bindings GLState.initial shW hsW [9]).1 0 (by decide),
   (render_hidden_final_bindings GLState.initial shW hsW [9]).2⟩

/-- The render call sequence exactly as C4 states it: bind the target, set
the viewport to the target's declared width and height, bind texture number
`i` of the input list to texture unit `i` in list order, activate the
attribute array, the program and the static quad vertex buffer, issue one
4-vertex triangle-strip draw, unbind each texture unit in list order, and
finally unbind the target. -/
def renderSpecTrace (sh : Shader) (surface : Surface) (textures : List Nat) :
    List GLCmd :=
  surface.bindCmds
    ++ [.viewport 0 0 surface.getWidth surface.getHeight]
    ++ (textures.enum.bind fun p =>
          [.activeTexture p.1, .bindTexture2D (some p.2)])
    ++ [ .enableVertexAttribArray sh.vertexAttribute,
         .useProgram sh.program,
         .bindBuffer sh.vertexBuffer,
         .vertexAttribPointer sh.vertexAttribute 4,
         .drawArrays .TRIANGLE_STRIP 0 4 ]
    ++ (textures.enum.bind fun p => [.activeTexture p.1, .bindTexture2D none])
    ++ surface.unbindCmds

/-- The source's texture-bind loop visits position `i` at unit `u + i`. -/
theorem useLoop_eq_enumFrom (ts : List Nat) (u : Nat) :
    useLoop ts u = (List.enumFrom u ts).bind fun p =>
      [.activeTexture p.1, .bindTexture2D (some p.2)] := by
  induction ts generalizing u with
  | nil => rfl
  | cons t ts ih => simp [useLoop, textureUse, List.enumFrom, ih]

/-- The source's texture-unbind loop visits position `i` at unit `u + i`. -/
theorem unuseLoop_eq_enumFrom (ts : List Nat) (u : Nat) :
    unuseLoop ts u = (List.enumFrom u ts).bind fun p =>
      [.activeTexture p.1, .bindTexture2D none] := by
  induction ts generalizing u with
  | nil => rfl
  | cons t ts ih => simp [unuseLoop, textureUnuse, List.enumFrom, ih]

/-- C4: the trace of GL calls `render(target, textures)` issues is exactly
the sequence the claim lists, in that order: bind target, viewport to the
declared dimensions, order-preserving texture binds (unit = list position),
program and quad-buffer activation, one 4-vertex triangle-strip draw,
texture unbinds, target unbind. -/
theorem render_eq_spec_trace (sh : Shader) (surface : Surface)
    (textures : List Nat) :
    sh.render surface textures = renderSpecTrace sh surface textures := by
  unfold Shader.render renderSpecTrace
  rw [useLoop_eq_enumFrom, unuseLoop_eq_enumFrom]
  rfl
